import Mathlib

/-!
Shallow embedding of the fastapi-starter backend (authentication, post
domain logic, generic pagination, response decorators, Redis cache wrapper)
together with theorems settling the specification claims about it.

Conventions of the embedding:
* Python `None`-able values are `Option`s; Python dictionaries are
  association lists; machine integers of the source are `Int`/`Nat`
  (no overflow is relevant anywhere in this code).
* Fallible operations return `Except`/`Option`; a `try/except` block of the
  source becomes a `match` on the embedded outcome of the guarded calls.
* External effects (the SQL database, the bcrypt hash, the Redis server,
  `json.loads`) are passed in as explicit data or function arguments so the
  embedded code stays pure and executable.
-/

/-- A Python-level primitive value as stored in model columns, filter maps
and claim sets: string, boolean, integer or `None`. -/
inductive PyValue where
  | vstr (s : String)
  | vbool (b : Bool)
  | vint (n : Int)
  | vnone
deriving DecidableEq, Repr

/-- Python truthiness of a `PyValue` (`if value:`). -/
def PyValue.truthy : PyValue → Bool
  | .vstr s => !s.isEmpty
  | .vbool b => b
  | .vint n => n != 0
  | .vnone => false

/-- Textual form of a value, as the database would compare it in a textual
`ILIKE`; only ever applied to string columns by the code under study. -/
def PyValue.asStr : PyValue → String
  | .vstr s => s
  | .vbool b => toString b
  | .vint n => toString n
  | .vnone => ""

/-- Drop characters of `t` up to and including the first occurrence of the
chunk `seg`; `none` when `seg` does not occur.  Helper for SQL `LIKE`. -/
def dropAfterSeg (seg : List Char) : List Char → Option (List Char)
  | [] => if seg.isEmpty then some [] else none
  | c :: rest =>
    if seg.isPrefixOf (c :: rest) then some (List.drop seg.length (c :: rest))
    else dropAfterSeg seg rest

/-- Match the remaining `%`-separated literal chunks of a `LIKE` pattern
against `t`: middles are found greedily left to right, the final chunk must
be a suffix. -/
def likeRest : List (List Char) → List Char → Bool
  | [], _ => true
  | [last], t => last.isSuffixOf t
  | seg :: rest, t =>
    match dropAfterSeg seg t with
    | some t2 => likeRest rest t2
    | none => false

/-- SQL `ILIKE`: case-insensitive `LIKE` with `%` wildcards, full-string
match.  A pattern without `%` is plain case-insensitive equality. -/
def sqlIlike (text pattern : String) : Bool :=
  let t := text.toLower.toList
  match (pattern.toLower.splitOn "%").map String.toList with
  | [] => t.isEmpty
  | [s] => t == s
  | s0 :: rest => if s0.isPrefixOf t then likeRest rest (List.drop s0.length t) else false

/-- Insert `a` into an already sorted list, stably, with respect to `le`. -/
def insertLe {α : Type} (le : α → α → Bool) (a : α) : List α → List α
  | [] => [a]
  | b :: bs => if le a b then a :: b :: bs else b :: insertLe le a bs

/-- Deterministic stable sort used to model SQL `ORDER BY`. -/
def sortLe {α : Type} (le : α → α → Bool) : List α → List α
  | [] => []
  | a :: as => insertLe le a (sortLe le as)

/-- Total comparison on column values used by the `ORDER BY` model; rows of
one column never mix types, so the cross-type cases are arbitrary. -/
def pyLe : PyValue → PyValue → Bool
  | .vint a, .vint b => a ≤ b
  | .vstr a, .vstr b => a ≤ b
  | .vbool a, .vbool b => !a || b
  | _, _ => true

/-- Column metadata of a mapped model class.  `hasattr f` is Python
`hasattr(model, f)`; `getattr r f` is the value of column `f` on row `r`,
`none` exactly when the class has no such attribute. -/
structure ModelMeta (Row : Type) where
  hasattr : String → Bool
  getattr : Row → String → Option PyValue

/-- An HTTP-style exception detail: either a plain string or the structured
`{error, message, details}` dictionary used by the domain exception
subclasses. -/
inductive HTTPDetail where
  | dstr (s : String)
  | dmap (error : String) (message : String) (details : List (String × PyValue))
deriving DecidableEq, Repr

/-- `fastapi.HTTPException`: a status code, a detail (string or structured
dictionary) and optional response headers. -/
structure HTTPException where
  status_code : Nat
  detail : HTTPDetail
  headers : List (String × String) := []
deriving DecidableEq, Repr

/-- `app.core.schemas.PaginationMeta`, a pydantic model. -/
structure PaginationMeta where
  page : Int
  size : Int
  total : Nat
  pages : Nat
  has_next : Bool
  has_prev : Bool
deriving DecidableEq, Repr

/-- The dictionary `{"items": ..., "meta": ...}` returned by
`Paginator.paginate`. -/
structure PageResult (Row : Type) where
  items : List Row
  meta : PaginationMeta
deriving DecidableEq, Repr

/-- `app.utils.pagination.Paginator` after a successful `__init__`:
the session's rows for the model, the model metadata, and the stored
page/size/filters/sort arguments (`sort_order` already lowercased). -/
structure Paginator (Row : Type) where
  rows : List Row
  M : ModelMeta Row
  page : Int
  size : Int
  filters : List (String × PyValue)
  sort_by : Option String
  sort_order : String

/-- `Paginator.__init__`: stores the arguments, lowercases `sort_order`,
then validates `page ≥ 1` and `1 ≤ size ≤ 100`, raising an HTTP 422 before
any query is executed (the stored `rows` are not consulted). -/
def Paginator.mkChecked {Row : Type} (rows : List Row) (M : ModelMeta Row)
    (page size : Int) (filters : List (String × PyValue))
    (sort_by : Option String) (sort_order : String) :
    Except HTTPException (Paginator Row) :=
  if page < 1 then
    .error ⟨422, .dstr "Page must be greater than 0", []⟩
  else if size < 1 ∨ size > 100 then
    .error ⟨422, .dstr "Size must be between 1 and 100", []⟩
  else
    .ok ⟨rows, M, page, size, filters, sort_by, sort_order.toLower⟩

/-- One filter condition of the paginator: a field absent from the model
contributes no condition; a string value containing `%` is matched with
case-insensitive `ILIKE`, any other value with equality. -/
def filterCond {Row : Type} (M : ModelMeta Row) (field : String)
    (value : PyValue) (r : Row) : Bool :=
  if M.hasattr field then
    match M.getattr r field with
    | some col =>
      match value with
      | .vstr s => if s.contains '%' then sqlIlike col.asStr s else col == value
      | _ => col == value
    | none => true
  else true

/-- The conjunction of all filter conditions (`and_(*conditions)`); an empty
filter map leaves the query unfiltered. -/
def rowMatches {Row : Type} (M : ModelMeta Row)
    (filters : List (String × PyValue)) (r : Row) : Bool :=
  filters.all fun fv => filterCond M fv.1 fv.2 r

/-- `Paginator.get_total_count`: count of the rows matching the filters. -/
def Paginator.getTotalCount {Row : Type} (p : Paginator Row) : Nat :=
  (p.rows.filter (rowMatches p.M p.filters)).length

/-- Sort key of a row for `ORDER BY` on field `f`. -/
def sortKey {Row : Type} (M : ModelMeta Row) (f : String) (r : Row) : PyValue :=
  (M.getattr r f).getD .vnone

/-- `Paginator.get_items`: filter, then sort (requested field if it exists
on the model, else `created_at` descending if present, else leave the order),
then apply `offset((page-1)*size)` and `limit(size)`. -/
def Paginator.getItems {Row : Type} (p : Paginator Row) : List Row :=
  let filtered := p.rows.filter (rowMatches p.M p.filters)
  let sorted :=
    match p.sort_by with
    | some f =>
      if f ≠ "" ∧ p.M.hasattr f then
        if p.sort_order = "desc" then
          sortLe (fun a b => pyLe (sortKey p.M f b) (sortKey p.M f a)) filtered
        else
          sortLe (fun a b => pyLe (sortKey p.M f a) (sortKey p.M f b)) filtered
      else if p.M.hasattr "created_at" then
        sortLe (fun a b =>
          pyLe (sortKey p.M "created_at" b) (sortKey p.M "created_at" a)) filtered
      else filtered
    | none =>
      if p.M.hasattr "created_at" then
        sortLe (fun a b =>
          pyLe (sortKey p.M "created_at" b) (sortKey p.M "created_at" a)) filtered
      else filtered
  (sorted.drop ((p.page - 1) * p.size).toNat).take p.size.toNat

/-- `Paginator.paginate`: total count, page slice, and the metadata
`pages = ceil(total/size)` (0 when the total is 0), `has_next = page < pages`,
`has_prev = page > 1`. -/
def Paginator.paginate {Row : Type} (p : Paginator Row) : PageResult Row :=
  let total := p.getTotalCount
  let items := p.getItems
  let pages : Nat := if total > 0 then (total + p.size.toNat - 1) / p.size.toNat else 0
  { items := items
    meta :=
      { page := p.page, size := p.size, total := total, pages := pages
        has_next := decide (p.page < (pages : Int))
        has_prev := decide (p.page > 1) } }

/-- `FilterBuilder.build_search_filters`: for an empty term or empty field
list, no condition; otherwise one `OR` of case-insensitive contains
conditions over the fields that exist on the model (empty if none do). -/
def build_search_filters {Row : Type} (M : ModelMeta Row)
    (search_term : String) (search_fields : List String) :
    List (Row → Bool) :=
  if search_term = "" ∨ search_fields = [] then []
  else
    let conds := (search_fields.filter M.hasattr).map
      (fun f => fun r => sqlIlike (sortKey M f r).asStr ("%" ++ search_term ++ "%"))
    if conds.isEmpty then [] else [fun r => conds.any (fun c => c r)]

/-- `app.utils.pagination.get_paginated_results`: copies the exact-match
filters into `filter_conditions`; when a truthy search term and field list
are given it calls `FilterBuilder.build_search_filters`, but the branch body
is `pass`, so the built search conditions are never merged into the
paginator's filters; then constructs the `Paginator` and paginates. -/
def get_paginated_results {Row : Type} (rows : List Row) (M : ModelMeta Row)
    (page size : Int) (filters : Option (List (String × PyValue)))
    (sort_by : Option String) (sort_order : String)
    (search_term : Option String) (search_fields : Option (List String)) :
    Except HTTPException (PageResult Row) :=
  let filter_conditions := match filters with | some fs => fs | none => []
  let _search_conditions :=
    match search_term, search_fields with
    | some t, some fs =>
      if t ≠ "" ∧ fs ≠ [] then build_search_filters M t fs else []
    | _, _ => []
  (Paginator.mkChecked rows M page size filter_conditions sort_by sort_order).map
    Paginator.paginate

/-- `app.auth.models.User` (equivalently `app.models.models.User`): the
mapped row.  The 128-bit UUID primary key is modelled as a `Nat`;
timestamps as `Nat` instants. -/
structure User where
  id : Nat
  email : String
  username : String
  full_name : Option String := none
  hashed_password : String
  is_active : Bool := true
  is_superuser : Bool := false
  is_verified : Bool := false
  last_login : Option Nat := none
deriving DecidableEq, Repr

/-- `app.posts.models.Post` (equivalently `app.models.models.Post`).
`is_published` is an `Option Bool` because the Python attribute can be
assigned `None` through a partial update. -/
structure Post where
  id : Nat
  title : String
  content : String
  slug : String
  summary : Option String := none
  is_published : Option Bool := some false
  published_at : Option Nat := none
  author_id : Nat
  created_at : Nat := 0
deriving DecidableEq, Repr

/-- `getattr` for the `Post` model's columns used by filtering/sorting. -/
def postGetattr (p : Post) : String → Option PyValue
  | "id" => some (.vint p.id)
  | "title" => some (.vstr p.title)
  | "content" => some (.vstr p.content)
  | "slug" => some (.vstr p.slug)
  | "summary" => some (match p.summary with | some s => .vstr s | none => .vnone)
  | "is_published" => some (match p.is_published with | some b => .vbool b | none => .vnone)
  | "published_at" => some (match p.published_at with | some t => .vint t | none => .vnone)
  | "author_id" => some (.vint p.author_id)
  | "created_at" => some (.vint p.created_at)
  | _ => none

/-- `hasattr` for the `Post` model. -/
def postHasattr (f : String) : Bool :=
  f = "id" ∨ f = "title" ∨ f = "content" ∨ f = "slug" ∨ f = "summary" ∨
  f = "is_published" ∨ f = "published_at" ∨ f = "author_id" ∨ f = "created_at"

/-- The `Post` model's metadata. -/
def postMeta : ModelMeta Post := ⟨postHasattr, postGetattr⟩

/-- `app.core.auth.AuthService.authenticate_user`: look up the single user
with the given email whose `is_active` column is true
(`User.is_active == True`); return `none` when absent or when the bcrypt
check `verify password hashed_password` fails; otherwise stamp `last_login`
to now, commit, and return the stamped user together with the updated
table.  `verify` stands for the external `pwd_context.verify`. -/
def authenticate_user_core (verify : String → String → Bool)
    (db : List User) (email password : String) (now : Nat) :
    Option (User × List User) :=
  match db.find? (fun u => u.email == email && u.is_active) with
  | none => none
  | some user =>
    if verify password user.hashed_password then
      let stamped := { user with last_login := some now }
      some (stamped, db.map fun x => if x.id == user.id then stamped else x)
    else none

/-- The activity clause of `app.auth.service.AuthService.authenticate_user`.
The source writes `User.is_active is True`: Python evaluates the `is`
identity test between the Column object and the `True` singleton before the
query is built, yielding the plain boolean `False`, which SQLAlchemy then
coerces into an always-false WHERE condition. -/
def serviceIsActiveClause : Bool := false

/-- `app.auth.service.AuthService.authenticate_user`: identical to the core
variant except that its WHERE clause is
`User.email == email AND false` (see `serviceIsActiveClause`). -/
def authenticate_user_service (verify : String → String → Bool)
    (db : List User) (email password : String) (now : Nat) :
    Option (User × List User) :=
  match db.find? (fun u => u.email == email && serviceIsActiveClause) with
  | none => none
  | some user =>
    if verify password user.hashed_password then
      let stamped := { user with last_login := some now }
      some (stamped, db.map fun x => if x.id == user.id then stamped else x)
    else none

/-- The claim set of a JWT: the `sub`, `username` and `exp` claims the code
reads (`sub`/`username` are strings, `exp` an instant in seconds). -/
structure JwtClaims where
  sub : Option String := none
  username : Option String := none
  exp : Option Int := none
deriving DecidableEq, Repr

/-- A signed, self-contained token: the claim set plus the secret and
algorithm it was signed with. -/
structure SignedToken where
  claims : JwtClaims
  secret : String
  alg : String
deriving DecidableEq, Repr

/-- `jose.jwt.encode`. -/
def jwt_encode (claims : JwtClaims) (secret alg : String) : SignedToken :=
  ⟨claims, secret, alg⟩

/-- `jose.jwt.decode`: signature validation against the given secret and
accepted algorithms, then the expiry check; `none` models a raised
`JWTError` (bad signature, wrong algorithm, or `exp ≤ now`). -/
def jwt_decode (tok : SignedToken) (secret : String) (algs : List String)
    (now : Int) : Option JwtClaims :=
  if tok.secret = secret ∧ tok.alg ∈ algs then
    match tok.claims.exp with
    | some e => if e ≤ now then none else some tok.claims
    | none => some tok.claims
  else none

/-- `AuthService.create_access_token` (both variants): copy the payload and
set `exp` to now plus the explicit override, or now plus the configured
lifetime in minutes, then sign. -/
def create_access_token (data : JwtClaims) (expires_delta : Option Int)
    (now : Int) (access_token_expire_minutes : Int) (secret alg : String) :
    SignedToken :=
  let expire :=
    match expires_delta with
    | some d => now + d
    | none => now + access_token_expire_minutes * 60
  jwt_encode { data with exp := some expire } secret alg

/-- Numeric value of a decimal digit character, `none` otherwise. -/
def digitVal (c : Char) : Option Nat :=
  if 48 ≤ c.toNat ∧ c.toNat ≤ 57 then some (c.toNat - 48) else none

/-- Fold a digit string into a number, `none` on any non-digit. -/
def parseDigits : List Char → Nat → Option Nat
  | [], acc => some acc
  | c :: cs, acc =>
    match digitVal c with
    | some d => parseDigits cs (acc * 10 + d)
    | none => none

/-- The UUID text form is modelled as an injective decimal rendering of the
`Nat` identifier; `uuidParse` is the constructor `UUID(s)`, `none` modelling
the `ValueError` it raises on a malformed string. -/
def uuidParse (s : String) : Option Nat :=
  if s.data.isEmpty then none else parseDigits s.data 0

/-- `app.auth.schemas.TokenData` / `app.models.schemas.TokenData`. -/
structure TokenData where
  user_id : Nat
  username : String
deriving DecidableEq, Repr

/-- `AuthService.verify_token` (both variants): decode and
signature/expiry-validate the token; return `none` when decoding raises,
when `sub` or `username` is missing, or when `UUID(sub)` raises — no
failure is propagated to the caller. -/
def verify_token (tok : SignedToken) (secret alg : String) (now : Int) :
    Option TokenData :=
  match jwt_decode tok secret [alg] now with
  | none => none
  | some payload =>
    match payload.sub, payload.username with
    | some uid, some uname =>
      match uuidParse uid with
      | some u => some ⟨u, uname⟩
      | none => none
    | _, _ => none

/-- Outcome of an awaited database call: the returned value, or a raised
database-level error. -/
inductive DbOutcome (α : Type) where
  | ok (a : α)
  | failure (msg : String)
deriving DecidableEq, Repr

/-- The single `credentials_exception` of `app.core.auth.get_current_user`. -/
def credentials_exception : HTTPException :=
  ⟨401, .dstr "Could not validate credentials", [("WWW-Authenticate", "Bearer")]⟩

/-- `app.core.auth.get_current_user`: verify the bearer token, load the
active user by the embedded id (`lookup uid` models
`select(User).where(User.id == uid, User.is_active == True)` and may raise);
a missing/invalid token, an absent user, and any exception caught by the
final `except Exception` all raise the same `credentials_exception`. -/
def get_current_user_core (tok : SignedToken) (secret alg : String)
    (now : Int) (lookup : Nat → DbOutcome (Option User)) :
    Except HTTPException User :=
  match verify_token tok secret alg now with
  | none => .error credentials_exception
  | some td =>
    match lookup td.user_id with
    | .failure _ => .error credentials_exception
    | .ok none => .error credentials_exception
    | .ok (some u) => .ok u

/-- `app.auth.exceptions.AuthenticationError`: HTTP 401 with the structured
`{error, message, details}` detail. -/
def AuthenticationError (msg : String) : HTTPException :=
  ⟨401, .dmap "AUTHENTICATION_ERROR" msg [], []⟩

/-- `app.auth.dependencies.get_current_user`: like the core variant but
raising `AuthenticationError`s; the final `except` re-raises an
`AuthenticationError` unchanged and wraps every other exception (such as a
raised database error) in `AuthenticationError "Authentication failed"`. -/
def get_current_user_deps (tok : SignedToken) (secret alg : String)
    (now : Int) (lookup : Nat → DbOutcome (Option User)) :
    Except HTTPException User :=
  match verify_token tok secret alg now with
  | none => .error (AuthenticationError "Could not validate credentials")
  | some td =>
    match lookup td.user_id with
    | .failure _ => .error (AuthenticationError "Authentication failed")
    | .ok none => .error (AuthenticationError "User not found")
    | .ok (some u) => .ok u

/-- `get_current_active_user` (both variants): re-check the active flag,
HTTP 400 when inactive. -/
def get_current_active_user (u : User) : Except HTTPException User :=
  if !u.is_active then .error ⟨400, .dstr "Inactive user", []⟩ else .ok u

/-- `app.auth.exceptions.InsufficientPermissionsError`: HTTP 403 with the
structured detail. -/
def InsufficientPermissionsError (msg : String) : HTTPException :=
  ⟨403, .dmap "INSUFFICIENT_PERMISSIONS" msg [], []⟩

/-- `app.core.auth.PermissionChecker.__call__` on the already-resolved
current user: a non-superuser with a non-empty required-permission list is
rejected with HTTP 403, everyone else is returned unchanged. -/
def permission_checker_core (required_permissions : List String) (u : User) :
    Except HTTPException User :=
  if !u.is_superuser && !required_permissions.isEmpty then
    .error ⟨403, .dstr "Insufficient permissions", []⟩
  else .ok u

/-- `app.auth.dependencies.PermissionChecker.__call__`: same policy, raising
`InsufficientPermissionsError`. -/
def permission_checker_deps (required_permissions : List String) (u : User) :
    Except HTTPException User :=
  if !u.is_superuser && !required_permissions.isEmpty then
    .error (InsufficientPermissionsError "Insufficient permissions")
  else .ok u

/-- The full dependency chain of a `PermissionChecker`-guarded route in the
core variant: `get_current_active_user` then the checker. -/
def permission_dependency_core (required_permissions : List String)
    (u : User) : Except HTTPException User :=
  (get_current_active_user u).bind (permission_checker_core required_permissions)

/-- The full dependency chain in the layered variant. -/
def permission_dependency_deps (required_permissions : List String)
    (u : User) : Except HTTPException User :=
  (get_current_active_user u).bind (permission_checker_deps required_permissions)

/-- `app.posts.exceptions.PostNotFoundError`. -/
def PostNotFoundError (msg : String) : HTTPException :=
  ⟨404, .dmap "POST_NOT_FOUND" msg [], []⟩

/-- `app.posts.exceptions.NotAuthorError`. -/
def NotAuthorError (msg : String) : HTTPException :=
  ⟨403, .dmap "NOT_AUTHOR" msg [], []⟩

/-- `app.posts.exceptions.SlugAlreadyExistsError`. -/
def SlugAlreadyExistsError (msg : String) : HTTPException :=
  ⟨409, .dmap "SLUG_ALREADY_EXISTS" msg [], []⟩

/-- `app.posts.exceptions.AccessDeniedError`. -/
def AccessDeniedError (msg : String) : HTTPException :=
  ⟨403, .dmap "ACCESS_DENIED" msg [], []⟩

/-- Python truthiness of the `is_published` attribute (`if post.is_published:`
— `None` and `False` are falsy). -/
def pubTruthy (b : Option Bool) : Bool := b.getD false

/-- `PostService.check_post_access`: a published post is visible to anyone;
an unpublished one only to its author or a superuser. -/
def check_post_access (post : Post) (current_user : User) : Bool :=
  if pubTruthy post.is_published then true
  else if post.author_id == current_user.id || current_user.is_superuser then true
  else false

/-- `app.posts.schemas.PostUpdate` after `model_dump(exclude_unset=True)`:
an outer `none` means the caller did not supply the field.  For
`is_published` the supplied value may itself be an explicit JSON `null`
(the field is typed `bool | None`), hence the inner `Option`; the string
fields carry their supplied string (an explicit `null` for them cannot
touch any field this development reasons about).  `published_at` is not a
field of `PostUpdate`, so it can never be supplied. -/
structure PostUpdate where
  title : Option String := none
  content : Option String := none
  summary : Option (Option String) := none
  is_published : Option (Option Bool) := none
  slug : Option String := none
deriving DecidableEq, Repr

/-- The `setattr` loop of `update_post`: apply exactly the supplied
fields. -/
def applyUpdate (post : Post) (upd : PostUpdate) : Post :=
  let p := match upd.title with | some t => { post with title := t } | none => post
  let p := match upd.content with | some c => { p with content := c } | none => p
  let p := match upd.summary with | some s => { p with summary := s } | none => p
  let p := match upd.is_published with | some b => { p with is_published := b } | none => p
  match upd.slug with | some s => { p with slug := s } | none => p

/-- `PostService.update_post`: load the post (404 if absent), require author
or superuser (403), reject a supplied truthy slug that differs from the
current one and collides with another post (409), apply the supplied
fields, and if `is_published` was among them transition `published_at`
(stamp to now when the post ends up published with `published_at` unset,
clear when it ends up unpublished); returns the updated post and table. -/
def update_post (db : List Post) (post_id : Nat) (post_data : PostUpdate)
    (current_user : User) (now : Nat) :
    Except HTTPException (Post × List Post) :=
  match db.find? (fun p => p.id == post_id) with
  | none => .error (PostNotFoundError "Post not found")
  | some post =>
    if post.author_id != current_user.id && !current_user.is_superuser then
      .error (NotAuthorError "You are not the author of this post")
    else
      let slugConflict :=
        match post_data.slug with
        | some s => !s.isEmpty && s != post.slug &&
            db.any (fun q => q.slug == s && q.id != post_id)
        | none => false
      if slugConflict then .error (SlugAlreadyExistsError "Slug already exists")
      else
        let p1 := applyUpdate post post_data
        let p2 :=
          if post_data.is_published.isSome then
            if pubTruthy p1.is_published && p1.published_at == none then
              { p1 with published_at := some now }
            else if !pubTruthy p1.is_published then
              { p1 with published_at := none }
            else p1
          else p1
        .ok (p2, db.map fun q => if q.id == post_id then p2 else q)

/-- `PostService.get_posts`: build the exact-match filters from the optional
publish-state and author arguments and delegate to
`get_paginated_results` with search over title/content/summary. -/
def postservice_get_posts (db : List Post) (page size : Int)
    (search : Option String) (is_published : Option Bool)
    (author_id : Option Nat) (sort_by : String) (sort_order : String) :
    Except HTTPException (PageResult Post) :=
  let filters :=
    (match is_published with
     | some b => [("is_published", PyValue.vbool b)]
     | none => []) ++
    (match author_id with
     | some a => [("author_id", PyValue.vint a)]
     | none => [])
  get_paginated_results db postMeta page size (some filters) (some sort_by)
    sort_order search (some ["title", "content", "summary"])

/-- A Python-level runtime failure escaping a handler. -/
inductive PyFailure where
  | typeError (msg : String)
  | validationError (msg : String)
deriving DecidableEq, Repr

/-- Subscript assignment `meta["total"] = v` executed by the listing
handlers.  `meta` is a `PaginationMeta` pydantic model instance; pydantic
models define no `__setitem__`, so the Python interpreter raises
`TypeError` regardless of the key and value. -/
def PaginationMeta.setItem (_m : PaginationMeta) (_key : String) (_v : Nat) :
    Except PyFailure PaginationMeta :=
  .error (.typeError "PaginationMeta object does not support item assignment")

/-- A failure raised out of a route handler body: an `HTTPException` or an
unstructured Python error. -/
inductive RouteFailure where
  | http (e : HTTPException)
  | pyerr (e : PyFailure)
deriving DecidableEq, Repr

/-- `app.posts.router.get_posts` (the layered `GET /posts/` handler):
delegate to `PostService.get_posts`; when the caller is not a superuser,
filter the fetched page through `check_post_access` and then execute
`result["meta"]["total"] = len(filtered_items)` on the `PaginationMeta`
instance (see `PaginationMeta.setItem`); the superuser path returns the
page unfiltered. -/
def get_posts_route (db : List Post) (page size : Int)
    (sort_by : Option String) (sort_order : String) (search : Option String)
    (is_published : Option Bool) (author_id : Option Nat)
    (current_user : User) : Except RouteFailure (PageResult Post) :=
  match postservice_get_posts db page size search is_published author_id
      (match sort_by with
       | some s => if s.isEmpty then "created_at" else s
       | none => "created_at") sort_order with
  | .error e => .error (.http e)
  | .ok result =>
    if !current_user.is_superuser then
      let filtered_items := result.items.filter fun p => check_post_access p current_user
      match result.meta.setItem "total" filtered_items.length with
      | .error e => .error (.pyerr e)
      | .ok m2 => .ok ⟨filtered_items, m2⟩
    else
      .ok result

/-- `app.core.schemas.ErrorResponse`, the uniform error envelope: a
machine-readable code, a message, optional structured details, and a
construction-time timestamp. -/
structure ErrorResponse where
  error : String
  message : String
  details : List (String × PyValue) := []
  timestamp : Nat := 0
deriving DecidableEq, Repr

/-- Constructing `ErrorResponse(error=..., message=detail, details=...)`
from an exception detail.  The `message` field of the pydantic model is
typed `str`; pydantic rejects the structured dictionary detail of the
domain exception subclasses, raising a `ValidationError`. -/
def mkErrorResponse (error : String) (detail : HTTPDetail)
    (details : List (String × PyValue)) (now : Nat) :
    Except PyFailure ErrorResponse :=
  match detail with
  | .dstr s => .ok ⟨error, s, details, now⟩
  | .dmap _ _ _ =>
    .error (.validationError "ErrorResponse.message: input should be a valid string")

/-- `app.core.schemas.ApiResponse`, the uniform success envelope. -/
structure ApiResponse (α : Type) where
  data : Option α
  success : Bool := true
  message : Option String := none
  timestamp : Nat := 0
deriving DecidableEq, Repr

/-- What the wrapped handler body did: returned a value, raised an
HTTP-style exception, raised a `ValueError`, or raised any other
exception (runtime type name and string form). -/
inductive HandlerOutcome (α : Type) where
  | ok (a : α)
  | http (e : HTTPException)
  | valueError (msg : String)
  | other (tyName : String) (msg : String)
deriving DecidableEq, Repr

/-- What escapes the `handle_response` wrapper: the success envelope, a
re-raised `HTTPException` whose detail is the serialized error envelope, or
an exception raised inside one of its own `except` blocks, which propagates
past the decorator untouched. -/
inductive WrapOutcome (α : Type) where
  | success (resp : ApiResponse α)
  | raisedHttp (status_code : Nat) (body : ErrorResponse)
  | escaped (e : PyFailure)
deriving DecidableEq, Repr

/-- `app.core.decorators.handle_response`: wrap a successful return in the
success envelope; re-raise an `HTTPException` at its own status code with
`ErrorResponse(error=error_code or BAD_REQUEST, message=e.detail,
details={"status_code": ...})` as body; convert a `ValueError` to a 422
validation envelope; convert any other exception to a 500 internal-error
envelope (with a traceback in the details when no error code was given). -/
def handle_response {α : Type} (success_message : Option String)
    (error_code : Option String) (funcName : String) (now : Nat)
    (outcome : HandlerOutcome α) : WrapOutcome α :=
  match outcome with
  | .ok a => .success ⟨some a, true, success_message, now⟩
  | .http e =>
    match mkErrorResponse (error_code.getD "BAD_REQUEST") e.detail
        [("status_code", .vint e.status_code)] now with
    | .ok body => .raisedHttp e.status_code body
    | .error pe => .escaped pe
  | .valueError msg =>
    .raisedHttp 422 ⟨"VALIDATION_ERROR", msg, [("function", .vstr funcName)], now⟩
  | .other tyName msg =>
    .raisedHttp 500 ⟨"INTERNAL_ERROR", "Internal server error",
      [("function", .vstr funcName), ("error_type", .vstr tyName),
       ("error_message", .vstr msg)], now⟩

/-- `app.core.decorators.handle_exceptions`: pass an `HTTPException`
through unchanged, convert a `ValueError` to a 422 and anything else to a
500, each wrapped as a new `HTTPException` whose detail is left abstract
here as the serialized envelope is a string-keyed dictionary. -/
def handle_exceptions {α : Type} (error_code : Option String)
    (funcName : String) (outcome : HandlerOutcome α) : HandlerOutcome α :=
  match outcome with
  | .ok a => .ok a
  | .http e => .http e
  | .valueError msg =>
    .http ⟨422, .dmap (error_code.getD "VALIDATION_ERROR") msg
      [("function", .vstr funcName)], []⟩
  | .other tyName msg =>
    .http ⟨500, .dmap (error_code.getD "INTERNAL_ERROR") "Internal server error"
      [("error_type", .vstr tyName), ("error_message", .vstr msg)], []⟩

/-- Outcome of one underlying `redis` client call: the reply, or a raised
client exception (connection failure, timeout, protocol error, ...). -/
inductive RedisReply (α : Type) where
  | ok (a : α)
  | failure (msg : String)
deriving DecidableEq, Repr

/-- `RedisCache.get`: `redis_client.get` returning nothing (never-set key)
yields `none`; a value is JSON-decoded when it parses (`jsonLoads` models
`json.loads`, `none` = `JSONDecodeError`) and returned raw otherwise; any
raised client exception is swallowed and yields `none`. -/
def redis_get (reply : RedisReply (Option String))
    (jsonLoads : String → Option PyValue) : Option PyValue :=
  match reply with
  | .failure _ => none
  | .ok none => none
  | .ok (some v) =>
    match jsonLoads v with
    | some j => some j
    | none => some (.vstr v)

/-- `RedisCache.set`: defaults the timeout to 3600 s, serializes via
`json.dumps` falling back to `pickle.dumps` (`jsonDumps` returning `none`
models the `TypeError`/`ValueError` fallback), issues `setex`, and returns
its boolean reply; any raised client exception yields `false`. -/
def redis_set (key : String) (value : PyValue) (timeout : Option Int)
    (use_json : Bool) (jsonDumps : PyValue → Option String)
    (pickleDumps : PyValue → String)
    (setex : String → Int → String → RedisReply Bool) : Bool :=
  let t := timeout.getD 3600
  let serialized :=
    if use_json then
      match jsonDumps value with
      | some s => (s, true)
      | none => (pickleDumps value, false)
    else (value.asStr, false)
  let reply :=
    if serialized.2 then setex key t serialized.1
    else setex key t (pickleDumps value)
  match reply with
  | .ok b => b
  | .failure _ => false

/-- `RedisCache.delete`: true iff a key was removed; `false` on a raised
client exception. -/
def redis_delete (reply : RedisReply Int) : Bool :=
  match reply with
  | .ok n => n > 0
  | .failure _ => false

/-- `RedisCache.exists`; `false` on a raised client exception. -/
def redis_exists (reply : RedisReply Int) : Bool :=
  match reply with
  | .ok n => n > 0
  | .failure _ => false

/-- `RedisCache.expire`; `false` on a raised client exception. -/
def redis_expire (reply : RedisReply Bool) : Bool :=
  match reply with
  | .ok b => b
  | .failure _ => false

/-- `RedisCache.ttl`; `-1` on a raised client exception. -/
def redis_ttl (reply : RedisReply Int) : Int :=
  match reply with
  | .ok n => n
  | .failure _ => -1

/-- `RedisCache.clear_pattern`: list the matching keys, delete them when
there are any; `0` on an empty match or a raised client exception. -/
def redis_clear_pattern (keysReply : RedisReply (List String))
    (deleteReply : RedisReply Int) : Int :=
  match keysReply with
  | .failure _ => 0
  | .ok [] => 0
  | .ok (_ :: _) =>
    match deleteReply with
    | .ok n => n
    | .failure _ => 0

/-- `RedisCache.increment`; `none` on a raised client exception. -/
def redis_increment (reply : RedisReply Int) : Option Int :=
  match reply with
  | .ok n => some n
  | .failure _ => none

/-- `RedisCache.decrement`; `none` on a raised client exception. -/
def redis_decrement (reply : RedisReply Int) : Option Int :=
  match reply with
  | .ok n => some n
  | .failure _ => none

/-- `RedisCache.get_keys`; `[]` on a raised client exception. -/
def redis_get_keys (reply : RedisReply (List String)) : List String :=
  match reply with
  | .ok ks => ks
  | .failure _ => []

/-- C5: for every model, page, size, filter map and sort arguments, and
every non-empty search term with a non-empty list of searchable fields,
`get_paginated_results` returns exactly the same result (items and total)
as the identical call with no search term: the search conditions it builds
are never merged into the executed query. -/
theorem C5_search_never_applied {Row : Type} (rows : List Row)
    (M : ModelMeta Row) (page size : Int)
    (filters : Option (List (String × PyValue))) (sort_by : Option String)
    (sort_order : String) (search_term : String)
    (search_fields : List String)
    (hterm : search_term ≠ "") (hfields : search_fields ≠ []) :
    get_paginated_results rows M page size filters sort_by sort_order
        (some search_term) (some search_fields) =
      get_paginated_results rows M page size filters sort_by sort_order
        none none := by
  simp [get_paginated_results]

/-- Witness for C5 at a concrete model, page and search request. -/
theorem C5_search_never_applied_witness :
    "hello" ≠ "" ∧ (["title"] : List String) ≠ [] ∧
    get_paginated_results [] postMeta 1 10 none none "asc"
        (some "hello") (some ["title"]) =
      get_paginated_results [] postMeta 1 10 none none "asc" none none :=
  ⟨by decide, by decide,
    C5_search_never_applied [] postMeta 1 10 none none "asc" "hello" ["title"]
      (by decide) (by decide)⟩

/-- C8: a cache `get` on a never-set key or on any raised store failure
returns `none`, a `set` under a store failure returns `false`, and every
other cache operation likewise swallows a raised client exception and
degrades to its neutral result — no operation propagates an exception. -/
theorem C8_cache_never_raises :
    (∀ jsonLoads : String → Option PyValue, redis_get (.ok none) jsonLoads = none)
    ∧ (∀ (msg : String) (jsonLoads : String → Option PyValue),
        redis_get (.failure msg) jsonLoads = none)
    ∧ (∀ (key : String) (value : PyValue) (timeout : Option Int)
        (use_json : Bool) (jsonDumps : PyValue → Option String)
        (pickleDumps : PyValue → String) (msg : String),
        redis_set key value timeout use_json jsonDumps pickleDumps
          (fun _ _ _ => .failure msg) = false)
    ∧ (∀ msg : String, redis_delete (.failure msg) = false)
    ∧ (∀ msg : String, redis_exists (.failure msg) = false)
    ∧ (∀ msg : String, redis_expire (.failure msg) = false)
    ∧ (∀ msg : String, redis_ttl (.failure msg) = -1)
    ∧ (∀ (msg : String) (r : RedisReply Int),
        redis_clear_pattern (.failure msg) r = 0)
    ∧ (∀ (msg : String) (ks : List String),
        redis_clear_pattern (.ok ks) (.failure msg) = 0)
    ∧ (∀ msg : String, redis_increment (.failure msg) = none)
    ∧ (∀ msg : String, redis_decrement (.failure msg) = none)
    ∧ (∀ msg : String, redis_get_keys (.failure msg) = []) := by
  refine ⟨fun _ => rfl, fun _ _ => rfl, ?_, fun _ => rfl, fun _ => rfl,
    fun _ => rfl, fun _ => rfl, fun _ _ => rfl, ?_, fun _ => rfl,
    fun _ => rfl, fun _ => rfl⟩
  · intro key value timeout use_json jsonDumps pickleDumps msg
    unfold redis_set
    cases use_json
    · rfl
    · cases jsonDumps value <;> rfl
  · intro msg ks
    cases ks <;> rfl

/-- C9: every failure inside current-user resolution — an unverifiable
token, no matching active user, or a raised database error during the
lookup — produces the single 401 authentication failure of the respective
variant, and no other exception kind escapes either `get_current_user`. -/
theorem C9_current_user_always_401 (tok : SignedToken) (secret alg : String)
    (now : Int) (lookup : Nat → DbOutcome (Option User)) :
    (get_current_user_core tok secret alg now lookup =
        .error credentials_exception ∨
      ∃ u, get_current_user_core tok secret alg now lookup = .ok u)
    ∧ ((∃ m, get_current_user_deps tok secret alg now lookup =
        .error (AuthenticationError m)) ∨
      ∃ u, get_current_user_deps tok secret alg now lookup = .ok u) := by
  constructor
  · cases hv : verify_token tok secret alg now with
    | none => exact Or.inl (by simp [get_current_user_core, hv])
    | some td =>
      cases hl : lookup td.user_id with
      | failure m => exact Or.inl (by simp [get_current_user_core, hv, hl])
      | ok o =>
        cases o with
        | none => exact Or.inl (by simp [get_current_user_core, hv, hl])
        | some u => exact Or.inr ⟨u, by simp [get_current_user_core, hv, hl]⟩
  · cases hv : verify_token tok secret alg now with
    | none =>
      exact Or.inl ⟨"Could not validate credentials",
        by simp [get_current_user_deps, hv]⟩
    | some td =>
      cases hl : lookup td.user_id with
      | failure m =>
        exact Or.inl ⟨"Authentication failed",
          by simp [get_current_user_deps, hv, hl]⟩
      | ok o =>
        cases o with
        | none =>
          exact Or.inl ⟨"User not found",
            by simp [get_current_user_deps, hv, hl]⟩
        | some u => exact Or.inr ⟨u, by simp [get_current_user_deps, hv, hl]⟩

/-- C10: a `PermissionChecker` with an empty required-permission list admits
every active user unchanged; with any non-empty list it admits exactly the
active superusers and raises the 403 insufficient-permissions error for
everyone else, regardless of which permission names the list contains —
in both coexisting implementations. -/
theorem C10_permission_checker (required : List String) (u : User)
    (hactive : u.is_active = true) :
    (required = [] →
      permission_dependency_core required u = .ok u ∧
      permission_dependency_deps required u = .ok u)
    ∧ (required ≠ [] →
      (u.is_superuser = true →
        permission_dependency_core required u = .ok u ∧
        permission_dependency_deps required u = .ok u)
      ∧ (u.is_superuser = false →
        permission_dependency_core required u =
          .error ⟨403, .dstr "Insufficient permissions", []⟩ ∧
        permission_dependency_deps required u =
          .error (InsufficientPermissionsError "Insufficient permissions"))) := by
  have hempty : required ≠ [] → required.isEmpty = false := by
    cases required <;> simp
  constructor
  · intro h
    subst h
    simp [permission_dependency_core, permission_dependency_deps,
      get_current_active_user, hactive, permission_checker_core,
      permission_checker_deps, Except.bind]
  · intro h
    constructor
    · intro hsup
      simp [permission_dependency_core, permission_dependency_deps,
        get_current_active_user, hactive, permission_checker_core,
        permission_checker_deps, Except.bind, hsup, hempty h]
    · intro hsup
      simp [permission_dependency_core, permission_dependency_deps,
        get_current_active_user, hactive, permission_checker_core,
        permission_checker_deps, Except.bind, hsup, hempty h]

/-- Witness for C10: a concrete active non-superuser is admitted by an
empty-list checker and rejected with 403 by a `["admin"]` checker. -/
theorem C10_permission_checker_witness :
    (⟨1, "a@example.com", "alice", none, "h", true, false, false, none⟩ :
      User).is_active = true ∧
    permission_dependency_core []
      ⟨1, "a@example.com", "alice", none, "h", true, false, false, none⟩ =
      .ok ⟨1, "a@example.com", "alice", none, "h", true, false, false, none⟩ ∧
    permission_dependency_core ["admin"]
      ⟨1, "a@example.com", "alice", none, "h", true, false, false, none⟩ =
      .error ⟨403, .dstr "Insufficient permissions", []⟩ :=
  ⟨by decide,
    ((C10_permission_checker []
      ⟨1, "a@example.com", "alice", none, "h", true, false, false, none⟩
      (by decide)).1 rfl).1,
    (((C10_permission_checker ["admin"]
      ⟨1, "a@example.com", "alice", none, "h", true, false, false, none⟩
      (by decide)).2 (by decide)).2 (by decide)).1⟩

/-- C1: an active stored user whose password verifies is nevertheless not
returned by the `app.auth.service` variant of `authenticate_user` — its
`User.is_active is True` clause makes the lookup always empty — while the
`app.core.auth` variant returns the user with `last_login` stamped, as the
claim states. -/
theorem C1_service_authenticate_always_absent :
    let bob : User := ⟨1, "bob@example.com", "bob", none, "hash1", true, false, false, none⟩
    let verify : String → String → Bool := fun p h => p == "pw1" && h == "hash1"
    bob.is_active = true
    ∧ verify "pw1" bob.hashed_password = true
    ∧ authenticate_user_core verify [bob] "bob@example.com" "pw1" 5 =
        some (⟨1, "bob@example.com", "bob", none, "hash1", true, false, false, some 5⟩,
          [⟨1, "bob@example.com", "bob", none, "hash1", true, false, false, some 5⟩])
    ∧ authenticate_user_service verify [bob] "bob@example.com" "pw1" 5 = none := by
  refine ⟨rfl, by decide, rfl, rfl⟩

/-- C2: for a concrete authenticated non-superuser caller and a page
whose single post is published (so the claim would have it returned with
total 1), the `GET /posts/` handler instead raises a `TypeError` at
`result["meta"]["total"] = len(filtered_items)`. -/
theorem C2_get_posts_route_raises_type_error :
    let reader : User := ⟨7, "r@example.com", "reader", none, "h", true, false, false, none⟩
    let p : Post := ⟨3, "Title", "Content", "title", none, some true, some 1, 9, 2⟩
    reader.is_superuser = false
    ∧ check_post_access p reader = true
    ∧ get_posts_route [p] 1 10 none "asc" none none none reader =
        .error (.pyerr (.typeError
          "PaginationMeta object does not support item assignment")) := by
  refine ⟨rfl, by decide, rfl⟩

/-- C7: `handle_response` re-raises a string-detail `HTTPException` at the
original status with the envelope as body, but on a domain exception whose
detail is the structured dictionary (here `PostNotFoundError`, status 404)
the `ErrorResponse(message=e.detail)` construction rejects the dictionary
and a validation error escapes the decorator instead of an `HTTPException`
at the original status code. -/
theorem C7_handle_response_dict_detail_escapes :
    @handle_response Unit none none "get_post" 0
        (.http (PostNotFoundError "Post not found")) =
      .escaped (.validationError
        "ErrorResponse.message: input should be a valid string")
    ∧ @handle_response Unit none none "get_post" 0
        (.http ⟨404, .dstr "Post not found", []⟩) =
      .raisedHttp 404 ⟨"BAD_REQUEST", "Post not found",
        [("status_code", .vint 404)], 0⟩ := by
  refine ⟨rfl, rfl⟩

/-- C4: a token issued by `create_access_token` with `sub` the user id's
text form and the username, verified before its expiry against the same
secret and algorithm, yields back exactly that user id and username; and
verifying any token whose claim set lacks `sub` or lacks `username`
returns `none` rather than raising. -/
theorem C4_token_roundtrip (uid : Nat) (sub uname secret alg : String)
    (now delta tv : Int) (hsub : uuidParse sub = some uid)
    (hexp : tv < now + delta) :
    verify_token
        (create_access_token ⟨some sub, some uname, none⟩ (some delta) now 30
          secret alg)
        secret alg tv = some ⟨uid, uname⟩
    ∧ (∀ claims : JwtClaims, claims.sub = none ∨ claims.username = none →
        verify_token (jwt_encode claims secret alg) secret alg tv = none) := by
  constructor
  · have hlt : ¬ (now + delta ≤ tv) := by omega
    simp [create_access_token, jwt_encode, verify_token, jwt_decode, hlt, hsub]
  · intro claims h
    obtain ⟨csub, cuser, cexp⟩ := claims
    unfold verify_token jwt_decode jwt_encode
    simp only [List.mem_singleton, and_self, if_true, eq_self_iff_true, true_and]
    cases cexp with
    | none => rcases h with h | h <;> simp_all
    | some e =>
      by_cases he : e ≤ tv
      · simp [he]
      · simp only [he, if_false, if_neg he]
        rcases h with h | h <;> simp_all

/-- Witness for C4 at a concrete user id, username, secret and lifetime. -/
theorem C4_token_roundtrip_witness :
    uuidParse "7" = some 7 ∧ (0 : Int) < 0 + 60 ∧
    verify_token
        (create_access_token ⟨some "7", some "bob", none⟩ (some 60) 0 30
          "secret" "HS256")
        "secret" "HS256" 0 = some ⟨7, "bob"⟩ :=
  ⟨by decide, by decide,
    (C4_token_roundtrip 7 "7" "bob" "secret" "HS256" 0 60 0 (by decide)
      (by decide)).1⟩

/-- C3: for every model and pagination request, a page below 1 or a size
outside [1,100] makes the paginator raise an HTTP 422 independently of the
database contents (so before any query executes); otherwise, the returned
item list has length at most `size` and the metadata satisfies
`pages = ceil(total/size)` when `total > 0`, `pages = 0` when `total = 0`,
`has_next = (page < pages)` and `has_prev = (page > 1)`. -/
theorem C3_paginator_contract {Row : Type} (rows : List Row)
    (M : ModelMeta Row) (page size : Int)
    (filters : List (String × PyValue)) (sort_by : Option String)
    (sort_order : String) :
    ((page < 1 ∨ size < 1 ∨ size > 100) →
      ∃ e : HTTPException, e.status_code = 422 ∧
        ∀ rows2 : List Row,
          Paginator.mkChecked rows2 M page size filters sort_by sort_order =
            .error e)
    ∧ (∀ p : Paginator Row,
        Paginator.mkChecked rows M page size filters sort_by sort_order =
          .ok p →
        ((p.paginate.items.length : Int) ≤ size
         ∧ (p.paginate.meta.total > 0 →
            p.paginate.meta.pages = p.paginate.meta.total ⌈/⌉ size.toNat)
         ∧ (p.paginate.meta.total = 0 → p.paginate.meta.pages = 0)
         ∧ p.paginate.meta.has_next =
             decide (page < (p.paginate.meta.pages : Int))
         ∧ p.paginate.meta.has_prev = decide (page > 1))) := by
  constructor
  · intro hbad
    by_cases hp : page < 1
    · exact ⟨⟨422, .dstr "Page must be greater than 0", []⟩, rfl,
        fun rows2 => by simp [Paginator.mkChecked, hp]⟩
    · have hs : size < 1 ∨ size > 100 := by
        rcases hbad with h | h | h
        · exact absurd h hp
        · exact Or.inl h
        · exact Or.inr h
      exact ⟨⟨422, .dstr "Size must be between 1 and 100", []⟩, rfl,
        fun rows2 => by simp [Paginator.mkChecked, hp, hs]⟩
  · intro p hok
    by_cases hp : page < 1
    · simp [Paginator.mkChecked, hp] at hok
    · by_cases hs : size < 1 ∨ size > 100
      · simp [Paginator.mkChecked, hp, hs] at hok
      · simp only [Paginator.mkChecked, hp, hs, if_false, if_neg hp, if_neg hs,
          Except.ok.injEq] at hok
        subst hok
        have hsize1 : (1 : Int) ≤ size := by omega
        have hsizeNat : (size.toNat : Int) = size := by omega
        refine ⟨?_, ?_, ?_, rfl, rfl⟩
        · have hlen : (Paginator.paginate
              ⟨rows, M, page, size, filters, sort_by,
                sort_order.toLower⟩).items.length ≤ size.toNat := by
            simp only [Paginator.paginate, Paginator.getItems]
            exact List.length_take_le _ _
          omega
        · intro htot
          simp only [Paginator.paginate] at htot ⊢
          rw [Nat.ceilDiv_eq_add_pred_div]
          simp only [if_pos htot]
        · intro htot
          simp only [Paginator.paginate] at htot ⊢
          simp [htot]

/-- Witness for C3: a valid request on an empty table satisfies the
metadata contract, and page 0 is rejected with a 422 whatever the rows. -/
theorem C3_paginator_contract_witness :
    (Paginator.mkChecked ([] : List Post) postMeta 1 10 [] none "asc" =
      .ok ⟨[], postMeta, 1, 10, [], none, "asc".toLower⟩
    ∧ (((⟨[], postMeta, 1, 10, [], none, "asc".toLower⟩ :
        Paginator Post).paginate.items.length : Int) ≤ 10))
    ∧ ∃ e : HTTPException, e.status_code = 422 ∧
        ∀ rows2 : List Post,
          Paginator.mkChecked rows2 postMeta 0 10 [] none "asc" = .error e :=
  ⟨⟨rfl,
    ((C3_paginator_contract [] postMeta 1 10 [] none "asc").2
      ⟨[], postMeta, 1, 10, [], none, "asc".toLower⟩ rfl).1⟩,
    (C3_paginator_contract [] postMeta 0 10 [] none "asc").1
      (Or.inl (by decide))⟩

/-- The `setattr` loop of `update_post` never touches `published_at`
(`published_at` is not a `PostUpdate` field). -/
theorem applyUpdate_published_at (post : Post) (upd : PostUpdate) :
    (applyUpdate post upd).published_at = post.published_at := by
  obtain ⟨t, c, s, b, sl⟩ := upd
  unfold applyUpdate
  cases t <;> cases c <;> cases s <;> cases b <;> cases sl <;> rfl

/-- C6: for every post update that succeeds, if `is_published` was among
the supplied fields then `published_at` is stamped to now when the post
ends up published with `published_at` previously unset and cleared when it
ends up unpublished; when `is_published` was not supplied, `published_at`
is unchanged (it is not itself an updatable field). -/
theorem C6_update_published_at_transitions (db : List Post) (post_id : Nat)
    (post_data : PostUpdate) (current_user : User) (now : Nat)
    (post p2 : Post) (db2 : List Post)
    (hfind : db.find? (fun p => p.id == post_id) = some post)
    (hok : update_post db post_id post_data current_user now = .ok (p2, db2)) :
    (post_data.is_published.isSome = true →
      ((pubTruthy p2.is_published = true ∧ post.published_at = none) →
        p2.published_at = some now)
      ∧ (pubTruthy p2.is_published = false → p2.published_at = none))
    ∧ (post_data.is_published = none →
        p2.published_at = post.published_at) := by
  have hpa := applyUpdate_published_at post post_data
  simp only [update_post, hfind] at hok
  split at hok
  · exact absurd hok (by simp)
  · split at hok
    · exact absurd hok (by simp)
    · rw [Except.ok.injEq, Prod.mk.injEq] at hok
      obtain ⟨hP, hD⟩ := hok
      subst hP
      constructor
      · intro hsome
        simp only [if_pos hsome]
        cases hb : pubTruthy (applyUpdate post post_data).is_published
        case false =>
          simp [hb]
        case true =>
          cases hpn : (applyUpdate post post_data).published_at
          case none =>
            simp [hb, hpn]
          case some t =>
            simp [hb, hpn]
            intro hpost
            rw [hpost] at hpa
            rw [hpa] at hpn
            exact Option.noConfusion hpn
      · intro hnone
        have hns : ¬ (post_data.is_published.isSome = true) := by
          rw [hnone]
          simp
        rw [if_neg hns]
        exact hpa

/-- Witness for C6: the author publishes their own unpublished post; the
update succeeds and `published_at` is stamped to the current time. -/
theorem C6_update_published_at_transitions_witness :
    ([(⟨1, "t", "c", "s", none, some false, none, 1, 0⟩ : Post)].find?
        (fun p => p.id == 1) =
      some ⟨1, "t", "c", "s", none, some false, none, 1, 0⟩)
    ∧ update_post [⟨1, "t", "c", "s", none, some false, none, 1, 0⟩] 1
        ⟨none, none, none, some (some true), none⟩
        ⟨1, "a@example.com", "author", none, "h", true, false, false, none⟩ 5 =
      .ok (⟨1, "t", "c", "s", none, some true, some 5, 1, 0⟩,
        [⟨1, "t", "c", "s", none, some true, some 5, 1, 0⟩])
    ∧ (⟨1, "t", "c", "s", none, some true, some 5, 1, 0⟩ : Post).published_at =
      some 5 :=
  ⟨rfl, rfl,
    (((C6_update_published_at_transitions
      [⟨1, "t", "c", "s", none, some false, none, 1, 0⟩] 1
      ⟨none, none, none, some (some true), none⟩
      ⟨1, "a@example.com", "author", none, "h", true, false, false, none⟩ 5
      ⟨1, "t", "c", "s", none, some false, none, 1, 0⟩
      ⟨1, "t", "c", "s", none, some true, some 5, 1, 0⟩
      [⟨1, "t", "c", "s", none, some true, some 5, 1, 0⟩]
      rfl rfl).1 rfl).1 ⟨rfl, rfl⟩)⟩
